import Mathlib

/-!
Verification of the kpt function-orchestration CLI against its source.

The definitions below are a shallow embedding of:
- thirdparty/cmdconfig/commands/cmdeval/cmdeval.go (the eval command:
  preflight checks, function spec resolution, CLI function config synthesis,
  saving a function to the Kptfile),
- github.com/google/shlex (the POSIX-style splitter used for exec commands),
- internal/errors/resolver/pkg.go (Kptfile error resolution),
- internal/util/diff (the package differ).

External effects (filesystem stats, docker availability, symlink resolution,
spawning the diff tool) are modelled as explicit environment records of
oracles; pure logic is translated directly from the Go source.
-/

set_option maxHeartbeats 1000000

instance {ε α : Type} [DecidableEq ε] [DecidableEq α] : DecidableEq (Except ε α) := fun x y =>
  match x, y with
  | Except.ok a, Except.ok b =>
      if h : a = b then isTrue (by rw [h])
      else isFalse (by intro he; cases he; exact h rfl)
  | Except.error a, Except.error b =>
      if h : a = b then isTrue (by rw [h])
      else isFalse (by intro he; cases he; exact h rfl)
  | Except.ok _, Except.error _ => isFalse (by intro he; cases he)
  | Except.error _, Except.ok _ => isFalse (by intro he; cases he)

/-- Go strings.SplitN(s, "=", 2): one element when s has no "=", otherwise
the part before the first "=" and everything after it. -/
def splitN2Eq (s : String) : List String :=
  let pre := s.data.takeWhile (fun c => c ≠ '=')
  match s.data.dropWhile (fun c => c ≠ '=') with
  | [] => [String.mk pre]
  | _ :: rest => [String.mk pre, String.mk rest]

/-- Whether a commandline data argument contains a "=" (Go: len(kv) == 2). -/
def hasEqB (s : String) : Bool := (splitN2Eq s).length = 2

/-- The key/value pair of a key=value argument (only used on arguments that
contain a "="). -/
def pairOfItem (s : String) : String × String :=
  match splitN2Eq s with
  | [k, v] => (k, v)
  | _ => (s, "")

/-- kyaml yaml.SetField / Go map assignment on the synthesized config data:
replace the entry for the key when present, otherwise append it. -/
def setField (data : List (String × String)) (k v : String) : List (String × String) :=
  if data.any (fun p => p.1 = k) then
    data.map (fun p => if p.1 = k then (k, v) else p)
  else data ++ [(k, v)]

/-- kptfile.Selector as read by the eval command flags
(match-api-version / match-kind / match-name / match-namespace). -/
structure Selector where
  APIVersion : String := ""
  Kind : String := ""
  Name : String := ""
  Namespace : String := ""
deriving DecidableEq, Repr

/-- kptfile.Selector.IsEmpty. -/
def Selector.IsEmpty (s : Selector) : Bool :=
  s.APIVersion = "" ∧ s.Kind = "" ∧ s.Name = "" ∧ s.Namespace = ""

/-- EvalFnRunner: the flag/argument state of the eval command. -/
structure EvalFnRunner where
  Dest : String := ""
  Image : String := ""
  Exec : String := ""
  FnConfigPath : String := ""
  ResultsDir : String := ""
  ImagePullPolicy : String := "IfNotPresent"
  Network : Bool := false
  Mounts : List String := []
  Env : List String := []
  AsCurrentUser : Bool := false
  IncludeMetaResources : Bool := false
  Sel : Selector := {}
  dataItems : List String := []
deriving DecidableEq, Repr

/-- The function config synthesized by getCLIFunctionConfig: a resource with
apiVersion, kind, metadata.name and a data map. -/
structure FnConfig where
  apiVersion : String
  kind : String
  metadataName : String
  data : List (String × String)
deriving DecidableEq, Repr

/-- The argument-processing loop of EvalFnRunner.getCLIFunctionConfig:
a first bare argument (no "=") becomes the kind; a later bare argument is an
error; key=value arguments are set into the data map. -/
def getCLIFunctionConfigGo (items : List String) (i : Nat) (kind : String)
    (data : List (String × String)) : Except String (String × List (String × String)) :=
  match items with
  | [] => Except.ok (kind, data)
  | s :: rest =>
    match splitN2Eq s with
    | [_] =>
      if i = 0 then getCLIFunctionConfigGo rest (i + 1) s data
      else Except.error ("args must have keys and values separated by =")
    | [k, v] => getCLIFunctionConfigGo rest (i + 1) kind (setField data k v)
    | _ => Except.error ("args must have keys and values separated by =")

/-- EvalFnRunner.getCLIFunctionConfig: returns no config when neither image
nor exec is set; otherwise synthesizes a resource with metadata.name
function-input, apiVersion v1, kind ConfigMap (unless overridden by a first
bare argument) and data from the key=value arguments. -/
def getCLIFunctionConfig (r : EvalFnRunner) (items : List String) :
    Except String (Option FnConfig) :=
  if r.Image = "" ∧ r.Exec = "" then Except.ok none
  else
    match getCLIFunctionConfigGo items 0 ("ConfigMap") [] with
    | Except.error e => Except.error e
    | Except.ok (kind, data) =>
      Except.ok (some { apiVersion := "v1", kind := kind,
                        metadataName := "function-input", data := data })

/-! The github.com/google/shlex lexer, used by getFunctionSpec to split the
exec command line. States follow shlex.go: a word can be plain, escaping
(after a backslash), inside double quotes, escaping inside double quotes, or
inside single quotes; comment tokens are skipped by the lexer. -/

/-- Sub-state of the shlex tokenizer while inside a word. -/
inductive WordSub
  | plain
  | escaping
  | escQuoted
  | dquote
  | squote
deriving DecidableEq, Repr

/-- Top-level state of the shlex tokenizer. -/
inductive ShMode
  | start
  | word (sub : WordSub) (acc : List Char)
  | comment
deriving DecidableEq, Repr

/-- shlex space runes: space, tab, carriage return, newline. -/
def isSpaceRune (c : Char) : Bool := c = ' ' ∨ c = '\t' ∨ c = '\r' ∨ c = '\n'

/-- The scanning loop of shlex.Split: consumes the input one rune at a time,
accumulating word tokens and skipping comments, with the error messages of
shlex.go at end of input inside an escape or a quote. -/
def shlexRun : List Char → ShMode → List String → Except String (List String)
  | [], ShMode.start, toks => Except.ok toks
  | [], ShMode.word WordSub.plain acc, toks => Except.ok (toks ++ [String.mk acc])
  | [], ShMode.word WordSub.escaping _, _ =>
      Except.error ("EOF found after escape character")
  | [], ShMode.word WordSub.escQuoted _, _ =>
      Except.error ("EOF found after escape character")
  | [], ShMode.word WordSub.dquote _, _ =>
      Except.error ("EOF found when expecting closing quote")
  | [], ShMode.word WordSub.squote _, _ =>
      Except.error ("EOF found when expecting closing quote")
  | [], ShMode.comment, toks => Except.ok toks
  | c :: cs, ShMode.start, toks =>
      if isSpaceRune c then shlexRun cs ShMode.start toks
      else if c = '"' then shlexRun cs (ShMode.word WordSub.dquote []) toks
      else if c = '\'' then shlexRun cs (ShMode.word WordSub.squote []) toks
      else if c = '\\' then shlexRun cs (ShMode.word WordSub.escaping []) toks
      else if c = '#' then shlexRun cs ShMode.comment toks
      else shlexRun cs (ShMode.word WordSub.plain [c]) toks
  | c :: cs, ShMode.word WordSub.plain acc, toks =>
      if isSpaceRune c then shlexRun cs ShMode.start (toks ++ [String.mk acc])
      else if c = '"' then shlexRun cs (ShMode.word WordSub.dquote acc) toks
      else if c = '\'' then shlexRun cs (ShMode.word WordSub.squote acc) toks
      else if c = '\\' then shlexRun cs (ShMode.word WordSub.escaping acc) toks
      else shlexRun cs (ShMode.word WordSub.plain (acc ++ [c])) toks
  | c :: cs, ShMode.word WordSub.escaping acc, toks =>
      shlexRun cs (ShMode.word WordSub.plain (acc ++ [c])) toks
  | c :: cs, ShMode.word WordSub.escQuoted acc, toks =>
      shlexRun cs (ShMode.word WordSub.dquote (acc ++ [c])) toks
  | c :: cs, ShMode.word WordSub.dquote acc, toks =>
      if c = '"' then shlexRun cs (ShMode.word WordSub.plain acc) toks
      else if c = '\\' then shlexRun cs (ShMode.word WordSub.escQuoted acc) toks
      else shlexRun cs (ShMode.word WordSub.dquote (acc ++ [c])) toks
  | c :: cs, ShMode.word WordSub.squote acc, toks =>
      if c = '\'' then shlexRun cs (ShMode.word WordSub.plain acc) toks
      else shlexRun cs (ShMode.word WordSub.squote (acc ++ [c])) toks
  | c :: cs, ShMode.comment, toks =>
      if c = '\n' then shlexRun cs ShMode.start toks
      else shlexRun cs ShMode.comment toks

/-- shlex.Split: split a command line into words by POSIX shell quoting
rules. -/
def shlexSplit (s : String) : Except String (List String) :=
  shlexRun s.data ShMode.start []

/-- runtimeutil.FunctionSpec, reduced to the fields the eval command sets:
the container image or the executable path. -/
structure FunctionSpec where
  containerImage : String := ""
  execPath : String := ""
deriving DecidableEq, Repr

/-- Go strings.Contains for a single character, over the string's runes. -/
def containsChar (s : String) (c : Char) : Bool := s.data.any (fun x => x = c)

/-- Modelled from the spec: fnruntime.AddDefaultImagePathPrefix is not under
src/; the spec says a default registry prefix is applied when the image is
unqualified. An image without a "/" is prefixed with the default function
registry. -/
def addDefaultImagePathPrefix (image : String) : String :=
  if containsChar image '/' then image else "gcr.io/kpt-fn/" ++ image

/-- Characters admitted by the permissive image-URL grammar. -/
def isImageRefChar (c : Char) : Bool :=
  c.isAlphanum ∨ c = '-' ∨ c = '_' ∨ c = '.' ∨ c = '/' ∨ c = ':' ∨ c = '@'

/-- Modelled from the spec: kptfile.ValidateFunctionImageURL is not under
src/; the spec says the image reference is validated against a permissive
image-URL grammar. A reference is valid when nonempty and built from
alphanumerics and the separators of image references. -/
def validateFunctionImageURL (image : String) : Bool :=
  image ≠ "" ∧ image.data.all isImageRefChar

/-- The error message produced for an image reference the grammar rejects. -/
def invalidImageMsg (image : String) : String :=
  "invalid function image URL " ++ image

/-- EvalFnRunner.getFunctionSpec: an image function validates the image URL;
an exec function first rejects the container-only flags, then splits the
command line with shlex, the head becoming the executable path and the tail
the args. -/
def getFunctionSpec (r : EvalFnRunner) :
    Except String (FunctionSpec × List String) :=
  if r.Image ≠ "" then
    if validateFunctionImageURL r.Image then
      Except.ok ({ containerImage := r.Image }, [])
    else Except.error (invalidImageMsg r.Image)
  else if r.Exec ≠ "" then
    if r.AsCurrentUser = true ∨ r.Network = true ∨ r.Mounts ≠ [] ∨ r.Env ≠ [] then
      Except.error ("--mount, --as-current-user, --network and --env can only be used with container functions")
    else
      match shlexSplit r.Exec with
      | Except.error e => Except.error ("exec command must be valid: " ++ e)
      | Except.ok [] => Except.ok ({}, [])
      | Except.ok (h :: t) => Except.ok ({ execPath := h }, t)
  else Except.ok ({}, [])

example : shlexSplit ("sh -c 'echo a b'") = Except.ok (["sh", "-c", "echo a b"]) := by
  decide

example : getCLIFunctionConfig { Image := "x" } ["a=b", "c"] =
    Except.error ("args must have keys and values separated by =") := by decide

/-- Sequencing of fallible steps (Go's early-return on error). -/
def bindE {β α : Type} (a : Except String β) (f : β → Except String α) : Except String α :=
  match a with
  | Except.error e => Except.error e
  | Except.ok x => f x

@[simp] theorem bindE_ok {β α : Type} (x : β) (f : β → Except String α) :
    bindE (Except.ok x) f = f x := rfl

@[simp] theorem bindE_error {β α : Type} (e : String) (f : β → Except String α) :
    bindE (Except.error e) f = Except.error e := rfl

/-- The external effects consulted by EvalFnRunner.preRunE, as oracles:
cmdutil.CheckDirectoryNotPresent, cmdutil.DockerCmdAvailable, os.MkdirAll,
the os.Stat existence check on the function config file, and
argutil.ResolveSymlink. -/
structure Env where
  checkDirectoryNotPresent : String → Except String Unit
  dockerCmdAvailable : Except String Unit
  mkdirAll : String → Except String Unit
  fnConfigExists : String → Bool
  resolveSymlink : String → Except String String

/-- An environment in which every external check succeeds and symlink
resolution is the identity. -/
def envOK : Env where
  checkDirectoryNotPresent := fun _ => Except.ok ()
  dockerCmdAvailable := Except.ok ()
  mkdirAll := fun _ => Except.ok ()
  fnConfigExists := fun _ => true
  resolveSymlink := fun p => Except.ok p

/-- preRunE step: when the output destination is a directory (not stdout or
unwrap), check it is not already present. -/
def destCheck (env : Env) (r : EvalFnRunner) : Except String Unit :=
  if r.Dest ≠ "" ∧ r.Dest ≠ "stdout" ∧ r.Dest ≠ "unwrap" then
    env.checkDirectoryNotPresent r.Dest
  else Except.ok ()

/-- preRunE step: reject an invocation that sets neither image nor exec;
when the image is set, apply the default image path prefix and require the
docker command to be available. Returns the (possibly prefixed) image. -/
def imageStep (env : Env) (r : EvalFnRunner) : Except String String :=
  if r.Image = "" ∧ r.Exec = "" then Except.error ("must specify --image or --exec")
  else if r.Image ≠ "" then
    match env.dockerCmdAvailable with
    | Except.error e => Except.error e
    | Except.ok _ => Except.ok (addDefaultImagePathPrefix r.Image)
  else Except.ok r.Image

/-- Modelled from the spec: cmdutil.ValidateImagePullPolicyValue is not under
src/; the spec says the pull policy is one of Always, IfNotPresent, Never. -/
def validImagePullPolicy (policy : String) : Bool :=
  policy = "Always" ∨ policy = "IfNotPresent" ∨ policy = "Never"

/-- preRunE step: validate the image pull policy flag. -/
def policyStep (r : EvalFnRunner) : Except String Unit :=
  if validImagePullPolicy r.ImagePullPolicy then Except.ok ()
  else Except.error ("invalid image pull policy: " ++ r.ImagePullPolicy)

/-- preRunE step: create the results directory when one was requested. -/
def resultsDirStep (env : Env) (r : EvalFnRunner) : Except String Unit :=
  if r.ResultsDir ≠ "" then
    match env.mkdirAll r.ResultsDir with
    | Except.error e =>
        Except.error ("cannot read or create results dir " ++ r.ResultsDir ++ ": " ++ e)
    | Except.ok _ => Except.ok ()
  else Except.ok ()

/-- cobra argument split: the positional arguments are those before the
double dash (all of them when no double dash was given). -/
def positionalArgs (args0 : List String) (argsLenAtDash : Option Nat) : List String :=
  match argsLenAtDash with
  | some k => args0.take k
  | none => args0

/-- cobra argument split: the data items are the arguments after the double
dash (none when no double dash was given). -/
def dashArgs (args0 : List String) (argsLenAtDash : Option Nat) : List String :=
  match argsLenAtDash with
  | some k => args0.drop k
  | none => []

/-- preRunE step: the function config file must exist when one was given. -/
def fnConfigCheck (env : Env) (path : String) : Except String Unit :=
  if env.fnConfigExists path then Except.ok ()
  else Except.error ("missing function config file: " ++ path)

/-- runfn.RunFns, reduced to the fields the eval command populates. -/
structure RunFnsModel where
  functionSpec : FunctionSpec
  execArgs : List String
  originalExec : String
  path : String
  network : Bool
  storageMounts : List String
  resultsDir : String
  env : List String
  asCurrentUser : Bool
  fnConfig : Option FnConfig
  fnConfigPath : String
  includeMetaResources : Bool
  imagePullPolicy : String
  continueOnEmptyResult : Bool
  selector : Selector
deriving DecidableEq, Repr

/-- The state preRunE leaves behind on success: the configured RunFns, the
stdin flag, the saved data items and the (possibly prefixed) image. -/
structure PreRunOutcome where
  runFns : RunFnsModel
  fromStdin : Bool
  dataItems : List String
  image : String
deriving DecidableEq, Repr

/-- preRunE step: the positional arguments after defaulting to the current
directory. -/
def defaultedArgs (args0 : List String) (argsLenAtDash : Option Nat) : List String :=
  if (positionalArgs args0 argsLenAtDash).isEmpty then ["."]
  else positionalArgs args0 argsLenAtDash

/-- preRunE step: reject more than one positional argument, and function
arguments combined with a function config file; returns the defaulted
positional arguments and the data items. -/
def argSplitStep (r : EvalFnRunner) (args0 : List String) (argsLenAtDash : Option Nat) :
    Except String (List String × List String) :=
  if (defaultedArgs args0 argsLenAtDash).length > 1 then
    Except.error ("0 or 1 arguments supported, function arguments go after '--'")
  else if dashArgs args0 argsLenAtDash ≠ [] ∧ r.FnConfigPath ≠ "" then
    Except.error ("function arguments can only be specified without function config file")
  else Except.ok (defaultedArgs args0 argsLenAtDash, dashArgs args0 argsLenAtDash)

/-- preRunE step: a single "-" positional argument means the resource input
is read from stdin. -/
def stdinFlag (args2 : List String) : Bool := args2.head? = some ("-")

/-- preRunE step: the package path — empty when reading from stdin (the
argument list is cleared), otherwise the single positional argument. -/
def pathOfArgs (args2 : List String) : String :=
  if args2.head? = some ("-") then ""
  else match args2 with | [p] => p | _ => ""

/-- EvalFnRunner.preRunE: the preflight of the eval command, in the order of
the source: destination check; image/exec presence check with image
prefixing and docker availability; pull policy validation; results dir
creation; split of the arguments at the double dash with defaulting of the
package path to the current directory, rejection of more than one positional
argument and rejection of data items combined with a function config file;
synthesis of the CLI function config; resolution of the function spec;
stdin handling for the "-" argument; function config existence check;
symlink resolution; and construction of the RunFns. -/
def preRunE (env : Env) (r : EvalFnRunner) (args0 : List String)
    (argsLenAtDash : Option Nat) : Except String PreRunOutcome :=
  bindE (destCheck env r) (fun _ =>
  bindE (imageStep env r) (fun image =>
  bindE (policyStep r) (fun _ =>
  bindE (resultsDirStep env r) (fun _ =>
  bindE (argSplitStep r args0 argsLenAtDash) (fun ad =>
  bindE (getCLIFunctionConfig { r with Image := image } ad.2) (fun fnConfig =>
  bindE (getFunctionSpec { r with Image := image }) (fun sp =>
  bindE (if r.FnConfigPath ≠ "" then fnConfigCheck env r.FnConfigPath else Except.ok ()) (fun _ =>
  bindE (if pathOfArgs ad.1 ≠ "" then env.resolveSymlink (pathOfArgs ad.1)
         else Except.ok (pathOfArgs ad.1)) (fun path2 =>
  Except.ok {
    runFns := {
      functionSpec := sp.1
      execArgs := sp.2
      originalExec := r.Exec
      path := path2
      network := r.Network
      storageMounts := r.Mounts
      resultsDir := r.ResultsDir
      env := r.Env
      asCurrentUser := r.AsCurrentUser
      fnConfig := fnConfig
      fnConfigPath := r.FnConfigPath
      includeMetaResources := r.IncludeMetaResources
      imagePullPolicy := r.ImagePullPolicy
      continueOnEmptyResult := true
      selector := r.Sel }
    fromStdin := stdinFlag ad.1
    dataItems := ad.2
    image := image })))))))))

example :
    preRunE envOK { Image := "", Exec := "" } [] none =
      Except.error ("must specify --image or --exec") := by decide

/-- kptfile.Function: a declared pipeline function. Unset optional fields
are the empty string / empty list, as in the Go zero values. -/
structure Function where
  image : String := ""
  exec : String := ""
  name : String := ""
  configPath : String := ""
  configMap : List (String × String) := []
  selectors : List Selector := []
deriving DecidableEq, Repr

/-- The data-map construction of EvalFnRunner.NewFunction: a first bare
argument is skipped (it was the kind override); a later bare argument would
index kv[1] out of range in Go, modelled as none. -/
def fnDataGo (items : List String) (i : Nat) (acc : List (String × String)) :
    Option (List (String × String)) :=
  match items with
  | [] => some acc
  | s :: rest =>
    match splitN2Eq s with
    | [_] => if i = 0 then fnDataGo rest (i + 1) acc else none
    | [k, v] => fnDataGo rest (i + 1) (setField acc k v)
    | _ => none

/-- EvalFnRunner.NewFunction: build the Kptfile function entry for the
evaluated invocation. relPath stands for the relative path computed by
pathutil.ResolveAbsAndRelPaths from the function config path. -/
def NewFunction (r : EvalFnRunner) (relPath : String) : Option Function :=
  let base : Function :=
    if r.Image ≠ "" then { image := r.Image, name := r.Image }
    else { exec := r.Exec, name := r.Exec }
  let base : Function :=
    if r.Sel.IsEmpty = false then { base with selectors := [r.Sel] } else base
  if r.FnConfigPath ≠ "" then some { base with configPath := relPath }
  else
    (fnDataGo r.dataItems 0 []).map (fun data =>
      if data ≠ [] then { base with configMap := data } else base)

/-- kptfile.Pipeline. -/
structure Pipeline where
  mutators : List Function := []
  validators : List Function := []
deriving DecidableEq, Repr

/-- kptfile.KptFile, reduced to the pipeline the save path touches. -/
structure Kptfile where
  pipeline : Option Pipeline := none
deriving DecidableEq, Repr

/-- The mutators list of a Kptfile (empty when no pipeline is declared). -/
def mutatorsOf (kf : Kptfile) : List Function :=
  (kf.pipeline.getD {}).mutators

/-- The validators list of a Kptfile (empty when no pipeline is declared). -/
def validatorsOf (kf : Kptfile) : List Function :=
  (kf.pipeline.getD {}).validators

/-- The skip condition of EvalFnRunner.SaveFnToKptfile: some existing
mutator's name or image equals the runner's image, or its name or exec
equals the runner's exec (the literal comparisons of the source, where an
unset image or exec is the empty string). -/
def saveSkip (r : EvalFnRunner) (muts : List Function) : Prop :=
  ∃ m ∈ muts, m.name = r.Image ∨ m.image = r.Image ∨ m.name = r.Exec ∨ m.exec = r.Exec

instance (r : EvalFnRunner) (muts : List Function) : Decidable (saveSkip r muts) :=
  List.decidableBEx _ muts

/-- EvalFnRunner.SaveFnToKptfile, as the transformation it performs on the
Kptfile resource (reading and writing the file are external): when the skip
condition holds the Kptfile is returned unchanged, otherwise the new
function entry is appended to the mutators. none models the Go panic on a
bare data item past the first. -/
def saveFnToKptfile (r : EvalFnRunner) (relPath : String) (kf : Kptfile) :
    Option Kptfile :=
  if saveSkip r (mutatorsOf kf) then some kf
  else
    (NewFunction r relPath).map (fun fn =>
      { kf with pipeline := some { mutators := mutatorsOf kf ++ [fn],
                                   validators := validatorsOf kf } })

/-! The error resolver of internal/errors/resolver/pkg.go. The Go error
values are modelled as an inductive of the error kinds the resolver
distinguishes; the text/template messages are modelled as string
concatenation, with the %q rendering of template arguments modelled by
goQuote. -/

/-- One character under Go %q rendering: backslash-escape the quote and the
backslash and the common control characters, pass other characters through. -/
def goQuoteChar (c : Char) : List Char :=
  if c = '"' then ['\\', '"']
  else if c = '\\' then ['\\', '\\']
  else if c = '\n' then ['\\', 'n']
  else if c = '\t' then ['\\', 't']
  else if c = '\r' then ['\\', 'r']
  else [c]

/-- Go %q rendering of a string: double quotes around the escaped body. -/
def goQuote (s : String) : String :=
  String.mk ('"' :: (s.data.map goQuoteChar).flatten ++ ['"'])

/-- The noKptfileMsg template of pkg.go. -/
def noKptfileMsg (path : String) : String :=
  "\nError: No Kptfile found at " ++ goQuote path ++ ".\n"

/-- The sentence of deprecatedKptfileMsg that directs the user to migrate. -/
def migrateDirective : String :=
  "Please update the package to the latest format."

/-- The migration guide URL cited by deprecatedKptfileMsg. -/
def migrateURL : String := "https://kpt.dev/installation/migration"

/-- The deprecatedKptfileMsg template of pkg.go. -/
def deprecatedKptfileMsg (path version : String) : String :=
  "\nError: Kptfile at " ++ goQuote path ++ " has an old version (" ++
    goQuote version ++ ") of the Kptfile schema. " ++ migrateDirective ++
    " See " ++ migrateURL ++ " for more details.\n"

/-- The unknownKptfileResourceMsg template of pkg.go. -/
def unknownKptfileResourceMsg (path gvk : String) : String :=
  "\nError: Kptfile at " ++ goQuote path ++ " has an unknown resource type (" ++
    goQuote gvk ++ ").\n"

/-- The kptfileReadErrMsg template of pkg.go; details stands for the nested
error details template expansion. -/
def kptfileReadErrMsg (path details : String) : String :=
  "\nError: Kptfile at " ++ goQuote path ++ " can't be read.\n" ++ details

/-- The nested error kinds resolveNestedErr distinguishes inside a
pkg.KptfileError: the os.ErrNotExist case, pkg.DeprecatedKptfileError,
pkg.UnknownKptfileResourceError, and any other read/parse failure. -/
inductive KptfileErrorNested
  | notExist
  | deprecated (version : String)
  | unknownResource (gvk : String)
  | readErr (details : String)
deriving DecidableEq, Repr

/-- The error values pkgErrorResolver.Resolve distinguishes: a local
pkg.KptfileError with its path, a pkg.RemoteKptfileError with its repo
reference, a kptfile ValidateError, or an unrelated error. -/
inductive PkgError
  | kptfileError (path : String) (nested : KptfileErrorNested)
  | remoteKptfileError (repoRef : String) (nested : KptfileErrorNested)
  | validateError (msg : String)
  | otherError (msg : String)
deriving DecidableEq, Repr

/-- resolveNestedErr of pkg.go: pick the template by the nested error kind;
every branch resolves (returns true). -/
def resolveNestedErr (path : String) (nested : KptfileErrorNested) : String × Bool :=
  match nested with
  | KptfileErrorNested.notExist => (noKptfileMsg path, true)
  | KptfileErrorNested.deprecated version => (deprecatedKptfileMsg path version, true)
  | KptfileErrorNested.unknownResource gvk => (unknownKptfileResourceMsg path gvk, true)
  | KptfileErrorNested.readErr details => (kptfileReadErrMsg path details, true)

/-- pkgErrorResolver.Resolve of pkg.go: a local Kptfile error resolves with
the Kptfile path, a remote one with the repo reference, a validate error
with its own message; anything else does not resolve. -/
def Resolve : PkgError → String × Bool
  | PkgError.kptfileError path nested => resolveNestedErr path nested
  | PkgError.remoteKptfileError repoRef nested => resolveNestedErr repoRef nested
  | PkgError.validateError msg => (msg, true)
  | PkgError.otherError _ => ("", false)

/-- A Kptfile manifest document as far as loading is concerned. -/
structure KptfileDoc where
  apiVersion : String
  kind : String
deriving DecidableEq, Repr

/-- The deprecated Kptfile schema versions exhibited by the source. -/
def deprecatedKptfileAPIVersions : List String :=
  ["kpt.dev/v1alpha1", "kpt.dev/v1alpha2"]

/-- Modelled from the spec: pkg.ReadKptfile is not under src/ (only the
error resolver for its error kinds is). The spec says the source exhibits
both old and v1 manifest kinds and rejects an old version with a deprecation
error rather than auto-migrating at load time; an unknown kind or apiVersion
yields the unknown-resource error. -/
def readKptfile (path : String) (doc : KptfileDoc) : Except PkgError KptfileDoc :=
  if doc.kind = "Kptfile" ∧ doc.apiVersion = "kpt.dev/v1" then Except.ok doc
  else if doc.kind = "Kptfile" ∧ doc.apiVersion ∈ deprecatedKptfileAPIVersions then
    Except.error (PkgError.kptfileError path (KptfileErrorNested.deprecated doc.apiVersion))
  else
    Except.error (PkgError.kptfileError path
      (KptfileErrorNested.unknownResource (doc.apiVersion ++ ", Kind=" ++ doc.kind)))

/-! The package differ of internal/util/diff: defaultPkgDiffer.Diff prepares
each staged package, runs the external diff tool, suppresses exit code 1
(directories differ) and prints a warning for any other exit code before
returning it. -/

/-- The outcome of exec.Cmd.Run for the diff tool: success, an exit with a
code (exec.ExitError), or a failure to run at all. -/
inductive CmdResult
  | success
  | exitError (code : Int)
  | otherError (msg : String)
deriving DecidableEq, Repr

/-- defaultPkgDiffer, reduced to the fields Diff reads. -/
structure DefaultPkgDiffer where
  DiffType : String := ""
  DiffTool : String := ""
  DiffToolOpts : String := ""
  Debug : Bool := false
deriving DecidableEq, Repr

/-- The external effects of defaultPkgDiffer.Diff: removing metadata from a
staged package and running the diff tool. -/
structure DiffEnv where
  prepareForDiff : String → Except String Unit
  runDiffTool : String → List String → CmdResult

/-- The preparation loop of defaultPkgDiffer.Diff over the staged
packages. -/
def prepAll (env : DiffEnv) : List String → Except String Unit
  | [] => Except.ok ()
  | p :: ps =>
    match env.prepareForDiff p with
    | Except.error e => Except.error e
    | Except.ok _ => prepAll env ps

/-- The argument list handed to the diff tool: the space-split tool options
(when given) followed by the staged package directories. -/
def diffToolArgs (d : DefaultPkgDiffer) (pkgs : List String) : List String :=
  if d.DiffToolOpts ≠ "" then d.DiffToolOpts.splitOn (" ") ++ pkgs else pkgs

/-- defaultPkgDiffer.Diff: prepare each package, run the tool; exit code 1
is suppressed to a nil error, any other exit code prints the warning (the
Bool of the result) and is returned as the error. -/
def defaultPkgDifferDiff (d : DefaultPkgDiffer) (env : DiffEnv)
    (pkgs : List String) : Except String Unit × Bool :=
  match prepAll env pkgs with
  | Except.error e => (Except.error e, false)
  | Except.ok _ =>
    match env.runDiffTool d.DiffTool (diffToolArgs d pkgs) with
    | CmdResult.success => (Except.ok (), false)
    | CmdResult.exitError code =>
        if code = 1 then (Except.ok (), false)
        else (Except.error ("exit status " ++ toString code), true)
    | CmdResult.otherError e => (Except.error e, false)

/-! Helper lemmas. -/

theorem bindE_eq_ok {β α : Type} {a : Except String β} {f : β → Except String α}
    {y : α} (h : bindE a f = Except.ok y) :
    ∃ x, a = Except.ok x ∧ f x = Except.ok y := by
  cases a with
  | error e => simp [bindE] at h
  | ok x => exact ⟨x, rfl, h⟩

theorem addDefaultImagePathPrefix_ne {s : String} (h : s ≠ "") :
    addDefaultImagePathPrefix s ≠ "" := by
  unfold addDefaultImagePathPrefix
  split
  · exact h
  · intro he
    have hd : ("gcr.io/kpt-fn/" ++ s).data = ("" : String).data := congrArg String.data he
    rw [String.data_append] at hd
    simp at hd

theorem imageStep_ok_image {env : Env} {r : EvalFnRunner} {img : String}
    (himg : r.Image ≠ "") (h : imageStep env r = Except.ok img) :
    img = addDefaultImagePathPrefix r.Image := by
  unfold imageStep at h
  rw [if_neg (fun hc => himg hc.1), if_pos himg] at h
  cases hdc : env.dockerCmdAvailable with
  | error e => rw [hdc] at h; cases h
  | ok _ => rw [hdc] at h; cases h; rfl

theorem getFunctionSpec_image {r : EvalFnRunner} {sp : FunctionSpec × List String}
    (himg : r.Image ≠ "") (h : getFunctionSpec r = Except.ok sp) :
    sp = ({ containerImage := r.Image, execPath := "" }, []) := by
  unfold getFunctionSpec at h
  rw [if_pos himg] at h
  split at h
  · cases h; rfl
  · cases h

/-- Whether a fallible computation succeeded. -/
def isOkE {α : Type} : Except String α → Bool
  | Except.ok _ => true
  | Except.error _ => false

/-! Claim C1. -/

/-- An eval invocation that provides both an image and an exec command. -/
def rBothC1 : EvalFnRunner := { Image := "gcr.io/kpt-fn/a:v1", Exec := "foo" }

/-- C1 counterexample: an eval invocation providing both an image and an
exec passes preflight (with every external check succeeding), so providing
both is not rejected with a configuration error. -/
theorem c1_both_image_and_exec_accepted :
    rBothC1.Image ≠ "" ∧ rBothC1.Exec ≠ "" ∧
    isOkE (preRunE envOK rBothC1 [] none) = true := by decide

/-- C1 (amended): an eval invocation providing neither an image nor an exec
fails preflight with a configuration error before any function executes;
when an image is provided (whether or not an exec is also provided), any
successful preflight resolves the function spec from the image and the exec
setting does not reach the function spec. -/
theorem c1_eval_requires_image_or_exec
    (env : Env) (r : EvalFnRunner) (args0 : List String) (k? : Option Nat)
    (hdest : destCheck env r = Except.ok ()) :
    (r.Image = "" ∧ r.Exec = "" →
        preRunE env r args0 k? = Except.error ("must specify --image or --exec"))
    ∧ (r.Image ≠ "" → ∀ out, preRunE env r args0 k? = Except.ok out →
        out.image = addDefaultImagePathPrefix r.Image ∧
        out.runFns.functionSpec =
          { containerImage := addDefaultImagePathPrefix r.Image, execPath := "" } ∧
        out.runFns.execArgs = []) := by
  constructor
  · rintro ⟨h1, h2⟩
    unfold preRunE
    rw [hdest, bindE_ok]
    unfold imageStep
    rw [if_pos ⟨h1, h2⟩, bindE_error]
  · intro himg out hout
    unfold preRunE at hout
    rw [hdest, bindE_ok] at hout
    obtain ⟨img, himgeq, h2⟩ := bindE_eq_ok hout
    have himgval : img = addDefaultImagePathPrefix r.Image := imageStep_ok_image himg himgeq
    obtain ⟨u1, hpol, h3⟩ := bindE_eq_ok h2
    obtain ⟨u2, hres, h4⟩ := bindE_eq_ok h3
    obtain ⟨ad, had, h5⟩ := bindE_eq_ok h4
    obtain ⟨fc, hfc, h6⟩ := bindE_eq_ok h5
    obtain ⟨sp, hsp, h7⟩ := bindE_eq_ok h6
    have himg2 : ({ r with Image := img } : EvalFnRunner).Image ≠ "" := by
      simpa [himgval] using addDefaultImagePathPrefix_ne himg
    have hspval := getFunctionSpec_image himg2 hsp
    obtain ⟨u3, hfcc, h8⟩ := bindE_eq_ok h7
    obtain ⟨p2, hp2, h9⟩ := bindE_eq_ok h8
    cases h9
    simp [hspval, himgval]

/-- C1 witness: a run with neither image nor exec, in the all-checks-pass
environment, is rejected with the configuration error. -/
theorem c1_eval_requires_image_or_exec_witness :
    destCheck envOK ({} : EvalFnRunner) = Except.ok () ∧
    ({} : EvalFnRunner).Image = "" ∧ ({} : EvalFnRunner).Exec = "" ∧
    preRunE envOK {} [] none = Except.error ("must specify --image or --exec") :=
  ⟨by decide, rfl, rfl,
   (c1_eval_requires_image_or_exec envOK {} [] none (by decide)).1 ⟨rfl, rfl⟩⟩

/-! Claim C2. -/

/-- C2: for an exec function (image unset, exec set), passing any of the
container-only flags (as-current-user, network, mounts, env) is rejected
with an error at resolution time; otherwise the exec command line is split
by the POSIX shell quoting rules of shlex, the head token becoming the
executable path and the tail the args. -/
theorem c2_exec_shlex_split (r : EvalFnRunner) (himg : r.Image = "")
    (hexec : r.Exec ≠ "") :
    ((r.AsCurrentUser = true ∨ r.Network = true ∨ r.Mounts ≠ [] ∨ r.Env ≠ []) →
        getFunctionSpec r = Except.error
          ("--mount, --as-current-user, --network and --env can only be used with container functions"))
    ∧ (r.AsCurrentUser = false → r.Network = false → r.Mounts = [] → r.Env = [] →
        ∀ hd tl, shlexSplit r.Exec = Except.ok (hd :: tl) →
          getFunctionSpec r = Except.ok ({ containerImage := "", execPath := hd }, tl)) := by
  constructor
  · intro hflags
    unfold getFunctionSpec
    rw [if_neg (by simp [himg]), if_pos hexec, if_pos hflags]
  · intro h1 h2 h3 h4 hd tl hsplit
    unfold getFunctionSpec
    rw [if_neg (by simp [himg]), if_pos hexec, if_neg (by simp [h1, h2, h3, h4]), hsplit]

/-- An exec invocation whose command line carries a double-quoted argument
with spaces. -/
def rC2 : EvalFnRunner := { Exec := "sh -c \"echo a b\"" }

/-- C2 witness: the quoted command line is split quote-aware into three
tokens, the head becoming the executable path and the rest the args. -/
theorem c2_exec_shlex_split_witness :
    rC2.Image = "" ∧ rC2.Exec ≠ "" ∧ rC2.AsCurrentUser = false ∧ rC2.Network = false ∧
    rC2.Mounts = [] ∧ rC2.Env = [] ∧
    shlexSplit rC2.Exec = Except.ok ("sh" :: ["-c", "echo a b"]) ∧
    getFunctionSpec rC2 =
      Except.ok ({ containerImage := "", execPath := "sh" }, ["-c", "echo a b"]) :=
  ⟨rfl, by decide, rfl, rfl, rfl, rfl, by decide,
   (c2_exec_shlex_split rC2 rfl (by decide)).2 rfl rfl rfl rfl "sh" ["-c", "echo a b"]
     (by decide)⟩

/-! Claim C3. -/

theorem splitN2Eq_shape (s : String) :
    (splitN2Eq s).length = 1 ∨ (splitN2Eq s).length = 2 := by
  unfold splitN2Eq
  cases s.data.dropWhile (fun c => c ≠ '=') <;> simp

theorem splitN2Eq_of_hasEq {s : String} (h : hasEqB s = true) :
    splitN2Eq s = [(pairOfItem s).1, (pairOfItem s).2] := by
  unfold hasEqB at h
  cases hsp : splitN2Eq s with
  | nil => rw [hsp] at h; simp at h
  | cons a l =>
    cases l with
    | nil => rw [hsp] at h; simp at h
    | cons b l2 =>
      cases l2 with
      | nil => simp [pairOfItem, hsp]
      | cons c l3 => rw [hsp] at h; simp at h

theorem splitN2Eq_of_not_hasEq {s : String} (h : hasEqB s = false) :
    ∃ a, splitN2Eq s = [a] := by
  have hlen : (splitN2Eq s).length = 1 := by
    rcases splitN2Eq_shape s with h1 | h2
    · exact h1
    · unfold hasEqB at h; rw [h2] at h; simp at h
  cases hsp : splitN2Eq s with
  | nil => rw [hsp] at hlen; simp at hlen
  | cons x l =>
    cases l with
    | nil => exact ⟨x, rfl⟩
    | cons y l2 => rw [hsp] at hlen; simp at hlen

theorem setField_not_mem (data : List (String × String)) (k v : String)
    (h : k ∉ data.map Prod.fst) : setField data k v = data ++ [(k, v)] := by
  unfold setField
  rw [if_neg]
  simp only [List.any_eq_true, not_exists, not_and]
  intro p hp
  intro hk
  exact h (List.mem_map.mpr ⟨p, hp, of_decide_eq_true hk⟩)

theorem getCLIFunctionConfigGo_all_eq (items : List String) :
    ∀ (i : Nat) (kind : String) (data : List (String × String)),
      (∀ s ∈ items, hasEqB s = true) →
      ((items.map (fun s => (pairOfItem s).1)).Nodup) →
      (∀ s ∈ items, (pairOfItem s).1 ∉ data.map Prod.fst) →
      getCLIFunctionConfigGo items i kind data =
        Except.ok (kind, data ++ items.map pairOfItem) := by
  induction items with
  | nil => intro i kind data _ _ _; simp [getCLIFunctionConfigGo]
  | cons s rest ih =>
    intro i kind data hall hnd hdj
    have hs : hasEqB s = true := hall s (by simp)
    have hsp := splitN2Eq_of_hasEq hs
    simp only [getCLIFunctionConfigGo, hsp]
    rw [setField_not_mem data _ _ (hdj s (by simp))]
    have hnd' := hnd
    rw [List.map_cons, List.nodup_cons] at hnd'
    rw [ih (i + 1) kind (data ++ [((pairOfItem s).1, (pairOfItem s).2)])
      (fun t ht => hall t (List.mem_cons_of_mem _ ht)) hnd'.2 ?hdj]
    · simp
    case hdj =>
      intro t ht
      rw [List.map_append]
      intro hmem
      rcases List.mem_append.mp hmem with hm1 | hm2
      · exact hdj t (List.mem_cons_of_mem _ ht) hm1
      · simp at hm2
        exact hnd'.1 (by rw [← hm2]; exact List.mem_map.mpr ⟨t, ht, rfl⟩)

theorem getCLIFunctionConfigGo_bare_err (items : List String) :
    ∀ (i : Nat) (kind : String) (data : List (String × String)),
      i ≠ 0 → (∃ s ∈ items, hasEqB s = false) →
      getCLIFunctionConfigGo items i kind data =
        Except.error ("args must have keys and values separated by =") := by
  induction items with
  | nil => intro i kind data _ hex; simp at hex
  | cons s rest ih =>
    intro i kind data hi hex
    by_cases hs : hasEqB s = true
    · have hsp := splitN2Eq_of_hasEq hs
      simp only [getCLIFunctionConfigGo, hsp]
      apply ih (i + 1) kind _ (by simp)
      rcases hex with ⟨t, ht, htb⟩
      rcases List.mem_cons.mp ht with rfl | htr
      · rw [hs] at htb; cases htb
      · exact ⟨t, htr, htb⟩
    · obtain ⟨a, ha⟩ := splitN2Eq_of_not_hasEq (by simpa using hs)
      simp only [getCLIFunctionConfigGo, ha]
      rw [if_neg hi]

/-- C3: when image or exec is set, the synthesized function config is a
ConfigMap resource (apiVersion v1, metadata.name function-input) whose data
holds every key=value argument; a first bare argument (no "=") overrides the
kind instead of becoming a data entry; and any later bare argument is an
error. -/
theorem c3_configmap_synthesis (r : EvalFnRunner) (items : List String)
    (hfn : r.Image ≠ "" ∨ r.Exec ≠ "") :
    ((∀ s ∈ items, hasEqB s = true) →
      ((items.map (fun s => (pairOfItem s).1)).Nodup) →
      getCLIFunctionConfig r items = Except.ok (some
        { apiVersion := "v1", kind := "ConfigMap", metadataName := "function-input",
          data := items.map pairOfItem }))
    ∧ (∀ s0 rest, items = s0 :: rest → hasEqB s0 = false →
        (∀ s ∈ rest, hasEqB s = true) →
        ((rest.map (fun s => (pairOfItem s).1)).Nodup) →
        getCLIFunctionConfig r items = Except.ok (some
          { apiVersion := "v1", kind := s0, metadataName := "function-input",
            data := rest.map pairOfItem }))
    ∧ (∀ s, s ∈ items.drop 1 → hasEqB s = false →
        getCLIFunctionConfig r items =
          Except.error ("args must have keys and values separated by =")) := by
  have hne : ¬(r.Image = "" ∧ r.Exec = "") := by
    rcases hfn with h | h
    · exact fun hc => h hc.1
    · exact fun hc => h hc.2
  refine ⟨?all, ?bare, ?err⟩
  case all =>
    intro hall hnd
    unfold getCLIFunctionConfig
    rw [if_neg hne,
      getCLIFunctionConfigGo_all_eq items 0 ("ConfigMap") [] hall hnd (by simp)]
    simp
  case bare =>
    intro s0 rest hitems hbare hall hnd
    subst hitems
    obtain ⟨a, ha⟩ := splitN2Eq_of_not_hasEq hbare
    unfold getCLIFunctionConfig
    rw [if_neg hne]
    simp only [getCLIFunctionConfigGo, ha, if_pos rfl]
    rw [getCLIFunctionConfigGo_all_eq rest 1 s0 [] hall hnd (by simp)]
    simp
  case err =>
    intro s hs hsb
    cases items with
    | nil => simp at hs
    | cons s0 rest =>
      simp only [List.drop_one, List.tail_cons] at hs
      unfold getCLIFunctionConfig
      rw [if_neg hne]
      by_cases hs0 : hasEqB s0 = true
      · have hsp := splitN2Eq_of_hasEq hs0
        simp only [getCLIFunctionConfigGo, hsp]
        rw [getCLIFunctionConfigGo_bare_err rest 1 _ _ (by simp) ⟨s, hs, hsb⟩]
      · obtain ⟨a, ha⟩ := splitN2Eq_of_not_hasEq (by simpa using hs0)
        simp only [getCLIFunctionConfigGo, ha]
        rw [getCLIFunctionConfigGo_bare_err rest 1 _ _ (by simp) ⟨s, hs, hsb⟩]
        simp

/-! Claim C4. -/

/-- A message cites a piece of text when the text occurs inside it. -/
def cites (msg sub : String) : Prop := List.IsInfix sub.data msg.data

theorem resolveNestedErr_resolves (path : String) (nested : KptfileErrorNested) :
    (resolveNestedErr path nested).2 = true ∧
    cites (resolveNestedErr path nested).1 (goQuote path) := by
  cases nested with
  | notExist =>
    exact ⟨rfl, ⟨("\nError: No Kptfile found at ").data, (".\n").data,
      by simp [resolveNestedErr, noKptfileMsg, String.data_append]⟩⟩
  | deprecated v =>
    exact ⟨rfl, ⟨("\nError: Kptfile at ").data,
      (" has an old version (" ++ goQuote v ++ ") of the Kptfile schema. " ++
        migrateDirective ++ " See " ++ migrateURL ++ " for more details.\n").data,
      by simp [resolveNestedErr, deprecatedKptfileMsg, String.data_append]⟩⟩
  | unknownResource g =>
    exact ⟨rfl, ⟨("\nError: Kptfile at ").data,
      (" has an unknown resource type (" ++ goQuote g ++ ").\n").data,
      by simp [resolveNestedErr, unknownKptfileResourceMsg, String.data_append]⟩⟩
  | readErr d =>
    exact ⟨rfl, ⟨("\nError: Kptfile at ").data, (" can't be read.\n" ++ d).data,
      by simp [resolveNestedErr, kptfileReadErrMsg, String.data_append]⟩⟩

/-- C4: for every Kptfile manifest error kind (missing, deprecated version,
unknown resource kind, unreadable), the resolver resolves it to a message
citing the Kptfile path (for a local Kptfile) or the repo reference (for a
remote one), and resolution returns true for all four kinds. -/
theorem c4_manifest_error_resolution (path repoRef : String)
    (nested : KptfileErrorNested) :
    ((Resolve (PkgError.kptfileError path nested)).2 = true ∧
      cites (Resolve (PkgError.kptfileError path nested)).1 (goQuote path))
    ∧ ((Resolve (PkgError.remoteKptfileError repoRef nested)).2 = true ∧
      cites (Resolve (PkgError.remoteKptfileError repoRef nested)).1 (goQuote repoRef)) :=
  ⟨resolveNestedErr_resolves path nested, resolveNestedErr_resolves repoRef nested⟩

/-! Claim C5. -/

theorem deprecatedKptfileMsg_cites (path v : String) :
    cites (deprecatedKptfileMsg path v) (goQuote v) ∧
    cites (deprecatedKptfileMsg path v) migrateDirective ∧
    cites (deprecatedKptfileMsg path v) migrateURL := by
  refine ⟨⟨("\nError: Kptfile at " ++ goQuote path ++ " has an old version (").data,
      ((") of the Kptfile schema. ") ++ migrateDirective ++ " See " ++ migrateURL ++
        " for more details.\n").data,
      by simp [deprecatedKptfileMsg, String.data_append]⟩,
    ⟨("\nError: Kptfile at " ++ goQuote path ++ " has an old version (" ++ goQuote v ++
        ") of the Kptfile schema. ").data,
      (" See " ++ migrateURL ++ " for more details.\n").data,
      by simp [deprecatedKptfileMsg, String.data_append]⟩,
    ⟨("\nError: Kptfile at " ++ goQuote path ++ " has an old version (" ++ goQuote v ++
        ") of the Kptfile schema. " ++ migrateDirective ++ " See ").data,
      (" for more details.\n").data,
      by simp [deprecatedKptfileMsg, String.data_append]⟩⟩

/-- C5: loading a package whose Kptfile uses a deprecated schema version is
rejected with a deprecation error — the manifest is not returned (no
auto-migration) — and resolving that error yields a message that names the
Kptfile path and the old version and directs the user to migrate. -/
theorem c5_deprecated_kptfile_rejected (path : String) (doc : KptfileDoc)
    (hkind : doc.kind = "Kptfile")
    (hver : doc.apiVersion ∈ deprecatedKptfileAPIVersions) :
    readKptfile path doc = Except.error
      (PkgError.kptfileError path (KptfileErrorNested.deprecated doc.apiVersion)) ∧
    (∀ kf, readKptfile path doc ≠ Except.ok kf) ∧
    (Resolve (PkgError.kptfileError path
      (KptfileErrorNested.deprecated doc.apiVersion))).2 = true ∧
    cites (Resolve (PkgError.kptfileError path
      (KptfileErrorNested.deprecated doc.apiVersion))).1 (goQuote path) ∧
    cites (Resolve (PkgError.kptfileError path
      (KptfileErrorNested.deprecated doc.apiVersion))).1 (goQuote doc.apiVersion) ∧
    cites (Resolve (PkgError.kptfileError path
      (KptfileErrorNested.deprecated doc.apiVersion))).1 migrateDirective ∧
    cites (Resolve (PkgError.kptfileError path
      (KptfileErrorNested.deprecated doc.apiVersion))).1 migrateURL := by
  have hvne : doc.apiVersion ≠ "kpt.dev/v1" := by
    simp only [deprecatedKptfileAPIVersions, List.mem_cons, List.mem_singleton,
      List.not_mem_nil, or_false] at hver
    rcases hver with h | h <;> rw [h] <;> decide
  have hread : readKptfile path doc = Except.error
      (PkgError.kptfileError path (KptfileErrorNested.deprecated doc.apiVersion)) := by
    unfold readKptfile
    rw [if_neg (fun hc => hvne hc.2), if_pos ⟨hkind, hver⟩]
  refine ⟨hread, ?_, rfl,
    (resolveNestedErr_resolves path (KptfileErrorNested.deprecated doc.apiVersion)).2,
    (deprecatedKptfileMsg_cites path doc.apiVersion).1,
    (deprecatedKptfileMsg_cites path doc.apiVersion).2.1,
    (deprecatedKptfileMsg_cites path doc.apiVersion).2.2⟩
  intro kf hk
  rw [hread] at hk
  cases hk

/-- C5 witness: a v1alpha2 Kptfile manifest is rejected with the deprecation
error at a concrete path. -/
theorem c5_deprecated_kptfile_rejected_witness :
    ({ apiVersion := "kpt.dev/v1alpha2", kind := "Kptfile" } : KptfileDoc).kind = "Kptfile" ∧
    ({ apiVersion := "kpt.dev/v1alpha2", kind := "Kptfile" } : KptfileDoc).apiVersion ∈
      deprecatedKptfileAPIVersions ∧
    readKptfile ("my-pkg/Kptfile") { apiVersion := "kpt.dev/v1alpha2", kind := "Kptfile" } =
      Except.error (PkgError.kptfileError ("my-pkg/Kptfile")
        (KptfileErrorNested.deprecated ("kpt.dev/v1alpha2"))) :=
  ⟨rfl, by decide,
   (c5_deprecated_kptfile_rejected ("my-pkg/Kptfile")
     { apiVersion := "kpt.dev/v1alpha2", kind := "Kptfile" } rfl (by decide)).1⟩

/-- C3 witness: two key=value arguments yield the synthesized ConfigMap with
both data entries. -/
theorem c3_configmap_synthesis_witness :
    (({ Image := "gcr.io/kpt-fn/set-labels:v0.1" } : EvalFnRunner).Image ≠ "" ∨
      ({ Image := "gcr.io/kpt-fn/set-labels:v0.1" } : EvalFnRunner).Exec ≠ "") ∧
    getCLIFunctionConfig { Image := "gcr.io/kpt-fn/set-labels:v0.1" } ["a=b", "c=d"] =
      Except.ok (some
        { apiVersion := "v1", kind := "ConfigMap", metadataName := "function-input",
          data := [("a", "b"), ("c", "d")] }) :=
  ⟨Or.inl (by decide),
   by
    have h := (c3_configmap_synthesis { Image := "gcr.io/kpt-fn/set-labels:v0.1" }
      ["a=b", "c=d"] (Or.inl (by decide))).1 (by decide) (by decide)
    rw [h]
    decide⟩

/-! Claim C6. -/

theorem c6_newFunction_config_exclusive (r : EvalFnRunner) (rel : String)
    (fn : Function) (hfn : NewFunction r rel = some fn) :
    fn.configPath = "" ∨ fn.configMap = [] := by
  unfold NewFunction at hfn
  by_cases hp : r.FnConfigPath ≠ ""
  · right
    rw [if_pos hp] at hfn
    cases hfn
    split <;> split <;> rfl
  · left
    rw [if_neg hp] at hfn
    cases hmap : fnDataGo r.dataItems 0 [] with
    | none => rw [hmap] at hfn; cases hfn
    | some data =>
      rw [hmap] at hfn
      simp only [Option.map_some'] at hfn
      cases hfn
      split
      · split <;> split <;> rfl
      · split <;> split <;> rfl

/-- C6: at most one of configPath / configMap: preflight rejects function
arguments after the double dash combined with a function config file, and
the Function object NewFunction builds never carries both a config path and
a config map. -/
theorem c6_config_exclusive (env : Env) (r : EvalFnRunner) (args0 : List String)
    (k? : Option Nat) (img : String)
    (hdest : destCheck env r = Except.ok ())
    (himgs : imageStep env r = Except.ok img)
    (hpol : policyStep r = Except.ok ())
    (hres : resultsDirStep env r = Except.ok ()) :
    ((defaultedArgs args0 k?).length ≤ 1 → dashArgs args0 k? ≠ [] →
      r.FnConfigPath ≠ "" →
      preRunE env r args0 k? =
        Except.error ("function arguments can only be specified without function config file"))
    ∧ (∀ rel fn, NewFunction r rel = some fn →
        fn.configPath = "" ∨ fn.configMap = []) := by
  constructor
  · intro hlen hdash hcfg
    unfold preRunE
    rw [hdest, bindE_ok, himgs, bindE_ok, hpol, bindE_ok, hres, bindE_ok]
    unfold argSplitStep
    rw [if_neg (by omega), if_pos ⟨hdash, hcfg⟩, bindE_error]
  · intro rel fn hfn
    exact c6_newFunction_config_exclusive r rel fn hfn

/-- An eval invocation with an image, a function config file, and data
arguments after the double dash. -/
def rC6 : EvalFnRunner := { Image := "x", FnConfigPath := "cfg.yaml" }

/-- C6 witness: combining a data argument after the double dash with a
function config file is rejected at preflight. -/
theorem c6_config_exclusive_witness :
    destCheck envOK rC6 = Except.ok () ∧
    imageStep envOK rC6 = Except.ok ("gcr.io/kpt-fn/x") ∧
    policyStep rC6 = Except.ok () ∧ resultsDirStep envOK rC6 = Except.ok () ∧
    (defaultedArgs ["a=b"] (some 0)).length ≤ 1 ∧
    dashArgs ["a=b"] (some 0) ≠ [] ∧ rC6.FnConfigPath ≠ "" ∧
    preRunE envOK rC6 ["a=b"] (some 0) =
      Except.error ("function arguments can only be specified without function config file") :=
  ⟨by decide, by decide, by decide, by decide, by decide, by decide, by decide,
   (c6_config_exclusive envOK rC6 ["a=b"] (some 0) ("gcr.io/kpt-fn/x")
     (by decide) (by decide) (by decide) (by decide)).1
     (by decide) (by decide) (by decide)⟩

/-! Claim C7. -/

theorem getCLIFunctionConfig_nil {r : EvalFnRunner}
    (h : ¬(r.Image = "" ∧ r.Exec = "")) :
    getCLIFunctionConfig r [] = Except.ok (some
      { apiVersion := "v1", kind := "ConfigMap",
        metadataName := "function-input", data := [] }) := by
  unfold getCLIFunctionConfig getCLIFunctionConfigGo
  rw [if_neg h]

/-- C7: when an image is set, preflight applies the default registry prefix
to it, and the (prefixed) image reference is validated against the function
image-URL grammar: any successful preflight carries the prefixed image in
its function spec, and a reference the grammar rejects fails resolution with
an error. -/
theorem c7_image_prefix_and_validation (env : Env) (r : EvalFnRunner)
    (args0 : List String) (k? : Option Nat)
    (hdest : destCheck env r = Except.ok ())
    (himg : r.Image ≠ "")
    (hdocker : env.dockerCmdAvailable = Except.ok ()) :
    (∀ out, preRunE env r args0 k? = Except.ok out →
        out.image = addDefaultImagePathPrefix r.Image ∧
        out.runFns.functionSpec.containerImage = addDefaultImagePathPrefix r.Image)
    ∧ (validateFunctionImageURL (addDefaultImagePathPrefix r.Image) = false →
        policyStep r = Except.ok () → resultsDirStep env r = Except.ok () →
        (defaultedArgs args0 k?).length ≤ 1 → dashArgs args0 k? = [] →
        preRunE env r args0 k? =
          Except.error (invalidImageMsg (addDefaultImagePathPrefix r.Image))) := by
  have himgok : imageStep env r = Except.ok (addDefaultImagePathPrefix r.Image) := by
    unfold imageStep
    rw [if_neg (fun hc => himg hc.1), if_pos himg, hdocker]
  constructor
  · intro out hout
    unfold preRunE at hout
    rw [hdest, bindE_ok] at hout
    obtain ⟨img, himgeq, h2⟩ := bindE_eq_ok hout
    have himgval : img = addDefaultImagePathPrefix r.Image := imageStep_ok_image himg himgeq
    obtain ⟨u1, hpol, h3⟩ := bindE_eq_ok h2
    obtain ⟨u2, hres, h4⟩ := bindE_eq_ok h3
    obtain ⟨ad, had, h5⟩ := bindE_eq_ok h4
    obtain ⟨fc, hfc, h6⟩ := bindE_eq_ok h5
    obtain ⟨sp, hsp, h7⟩ := bindE_eq_ok h6
    have himg2 : ({ r with Image := img } : EvalFnRunner).Image ≠ "" := by
      simpa [himgval] using addDefaultImagePathPrefix_ne himg
    have hspval := getFunctionSpec_image himg2 hsp
    obtain ⟨u3, hfcc, h8⟩ := bindE_eq_ok h7
    obtain ⟨p2, hp2, h9⟩ := bindE_eq_ok h8
    cases h9
    simp [hspval, himgval]
  · intro hval hpol hres hlen hdash
    unfold preRunE
    rw [hdest, bindE_ok, himgok, bindE_ok, hpol, bindE_ok, hres, bindE_ok]
    have hsplit : argSplitStep r args0 k? =
        Except.ok (defaultedArgs args0 k?, dashArgs args0 k?) := by
      unfold argSplitStep
      rw [if_neg (by omega), if_neg (fun hc => hc.1 hdash)]
    rw [hsplit, bindE_ok]
    have hne : ¬(({ r with Image := addDefaultImagePathPrefix r.Image } :
        EvalFnRunner).Image = "" ∧
        ({ r with Image := addDefaultImagePathPrefix r.Image } : EvalFnRunner).Exec = "") := by
      intro hc
      exact addDefaultImagePathPrefix_ne himg hc.1
    rw [show (defaultedArgs args0 k?, dashArgs args0 k?).2 = dashArgs args0 k? from rfl,
      hdash, getCLIFunctionConfig_nil hne, bindE_ok]
    have hspec : getFunctionSpec { r with Image := addDefaultImagePathPrefix r.Image } =
        Except.error (invalidImageMsg (addDefaultImagePathPrefix r.Image)) := by
      unfold getFunctionSpec
      rw [if_pos (by simpa using addDefaultImagePathPrefix_ne himg),
        if_neg (by simp [hval])]
    rw [hspec, bindE_error]

/-- An eval invocation whose image, once prefixed, is rejected by the image
reference grammar (it contains a space and an exclamation mark). -/
def rC7 : EvalFnRunner := { Image := "bad image!" }

/-- C7 witness: a reference the grammar rejects fails preflight with the
validation error, and a valid one passes preflight. -/
theorem c7_image_prefix_and_validation_witness :
    destCheck envOK rC7 = Except.ok () ∧ rC7.Image ≠ "" ∧
    envOK.dockerCmdAvailable = Except.ok () ∧
    validateFunctionImageURL (addDefaultImagePathPrefix rC7.Image) = false ∧
    preRunE envOK rC7 [] none =
      Except.error (invalidImageMsg (addDefaultImagePathPrefix rC7.Image)) ∧
    isOkE (preRunE envOK { Image := "a" } [] none) = true :=
  ⟨by decide, by decide, rfl, by decide,
   (c7_image_prefix_and_validation envOK rC7 [] none (by decide) (by decide) rfl).2
     (by decide) (by decide) (by decide) (by decide) rfl,
   by decide⟩

/-! Claim C8. -/

theorem imageStep_ok_not_both {env : Env} {r : EvalFnRunner} {img : String}
    (h : imageStep env r = Except.ok img) : ¬(img = "" ∧ r.Exec = "") := by
  unfold imageStep at h
  by_cases hb : r.Image = "" ∧ r.Exec = ""
  · rw [if_pos hb] at h; cases h
  · rw [if_neg hb] at h
    by_cases hi : r.Image ≠ ""
    · rw [if_pos hi] at h
      cases hdc : env.dockerCmdAvailable with
      | error e => rw [hdc] at h; cases h
      | ok _ =>
        rw [hdc] at h
        cases h
        intro hc
        exact addDefaultImagePathPrefix_ne hi hc.1
    · rw [if_neg hi] at h
      cases h
      intro hc
      exact hb ⟨not_ne_iff.mp hi, hc.2⟩

/-- C8: eval accepts at most one positional argument before the double dash:
with zero arguments the package path defaults to the current directory "."
(then resolved through the symlink oracle); with the single argument "-" the
input is read from stdin and the path is cleared; with more than one
positional argument preflight fails with the usage error. -/
theorem c8_positional_args (env : Env) (r : EvalFnRunner) (args0 : List String)
    (k? : Option Nat) (img : String) (sp : FunctionSpec × List String)
    (hdest : destCheck env r = Except.ok ())
    (himgs : imageStep env r = Except.ok img)
    (hpol : policyStep r = Except.ok ())
    (hres : resultsDirStep env r = Except.ok ())
    (hdash : dashArgs args0 k? = [])
    (hspec : getFunctionSpec { r with Image := img } = Except.ok sp)
    (hfcp : r.FnConfigPath = "" ∨ env.fnConfigExists r.FnConfigPath = true) :
    (∀ p, positionalArgs args0 k? = [] → env.resolveSymlink (".") = Except.ok p →
      ∃ out, preRunE env r args0 k? = Except.ok out ∧
        out.runFns.path = p ∧ out.fromStdin = false)
    ∧ (positionalArgs args0 k? = ["-"] →
      ∃ out, preRunE env r args0 k? = Except.ok out ∧
        out.runFns.path = "" ∧ out.fromStdin = true)
    ∧ ((positionalArgs args0 k?).length > 1 →
      preRunE env r args0 k? =
        Except.error ("0 or 1 arguments supported, function arguments go after '--'")) := by
  have hner : ¬(img = "" ∧ r.Exec = "") := imageStep_ok_not_both himgs
  have hnerec : ¬(({ r with Image := img } : EvalFnRunner).Image = "" ∧
      ({ r with Image := img } : EvalFnRunner).Exec = "") := by
    simpa using hner
  have hfccok : (if r.FnConfigPath ≠ "" then fnConfigCheck env r.FnConfigPath
      else Except.ok ()) = Except.ok () := by
    rcases hfcp with h | h
    · rw [if_neg (by simp [h])]
    · by_cases hne2 : r.FnConfigPath ≠ ""
      · rw [if_pos hne2]
        unfold fnConfigCheck
        rw [if_pos h]
      · rw [if_neg hne2]
  refine ⟨?caseDot, ?caseStdin, ?caseMany⟩
  case caseDot =>
    intro p hpos hsym
    have hsplit : argSplitStep r args0 k? = Except.ok (["."], []) := by
      unfold argSplitStep defaultedArgs
      rw [hpos, hdash]
      simp
    unfold preRunE
    rw [hdest, bindE_ok, himgs, bindE_ok, hpol, bindE_ok, hres, bindE_ok, hsplit, bindE_ok]
    simp only [getCLIFunctionConfig_nil hnerec, bindE_ok, hspec, hfccok]
    rw [show pathOfArgs ["."] = "." from by decide]
    rw [if_pos (show ("." : String) ≠ "" from by decide)]
    rw [hsym, bindE_ok]
    exact ⟨_, rfl, rfl, show stdinFlag ["."] = false from by decide⟩
  case caseStdin =>
    intro hpos
    have hsplit : argSplitStep r args0 k? = Except.ok (["-"], []) := by
      unfold argSplitStep defaultedArgs
      rw [hpos, hdash]
      simp
    unfold preRunE
    rw [hdest, bindE_ok, himgs, bindE_ok, hpol, bindE_ok, hres, bindE_ok, hsplit, bindE_ok]
    simp only [getCLIFunctionConfig_nil hnerec, bindE_ok, hspec, hfccok]
    rw [show pathOfArgs ["-"] = "" from by decide]
    rw [if_neg (show ¬("" : String) ≠ "" from by decide), bindE_ok]
    exact ⟨_, rfl, rfl, show stdinFlag ["-"] = true from by decide⟩
  case caseMany =>
    intro hlen
    have hne2 : (positionalArgs args0 k?).isEmpty = false := by
      cases hp : positionalArgs args0 k? with
      | nil => rw [hp] at hlen; simp at hlen
      | cons a l => rfl
    have hdef : defaultedArgs args0 k? = positionalArgs args0 k? := by
      unfold defaultedArgs
      rw [hne2]
      simp
    have hsplit : argSplitStep r args0 k? =
        Except.error ("0 or 1 arguments supported, function arguments go after '--'") := by
      unfold argSplitStep
      rw [hdef, if_pos hlen]
    unfold preRunE
    rw [hdest, bindE_ok, himgs, bindE_ok, hpol, bindE_ok, hres, bindE_ok, hsplit, bindE_error]

/-- C8 witness: the single positional argument "-" makes preflight read from
stdin with a cleared package path. -/
theorem c8_positional_args_witness :
    dashArgs ["-"] none = [] ∧ positionalArgs ["-"] none = ["-"] ∧
    (∃ out, preRunE envOK { Image := "a" } ["-"] none = Except.ok out ∧
      out.runFns.path = "" ∧ out.fromStdin = true) :=
  ⟨rfl, rfl,
   (c8_positional_args envOK { Image := "a" } ["-"] none ("gcr.io/kpt-fn/a")
     ({ containerImage := "gcr.io/kpt-fn/a" }, []) (by decide) (by decide) (by decide)
     (by decide) rfl (by decide) (Or.inl rfl)).2.1 rfl⟩

/-! Claim C9. -/

/-- The claim's reading of a mutator matching the function being saved: one
of the set (nonempty) fields of the saved function coincides with the same
field of the existing mutator. -/
def claimMatches (fn m : Function) : Prop :=
  (fn.name ≠ "" ∧ m.name = fn.name) ∨ (fn.image ≠ "" ∧ m.image = fn.image) ∨
  (fn.exec ≠ "" ∧ m.exec = fn.exec)

instance (fn m : Function) : Decidable (claimMatches fn m) := by
  unfold claimMatches
  infer_instance

/-- An eval invocation saving an image function. -/
def rC9 : EvalFnRunner := { Image := "gcr.io/kpt-fn/a:v1" }

/-- An existing mutator declaring a different image under a different name. -/
def mC9 : Function := { image := "gcr.io/kpt-fn/b:v1", name := "b" }

/-- A Kptfile whose pipeline holds only that mutator. -/
def kfC9 : Kptfile := { pipeline := some { mutators := [mC9], validators := [] } }

/-- C9 counterexample: saving an image function to a Kptfile whose only
mutator is a different image function under a different name: no name,
image, or exec of the existing mutator matches the function being saved,
yet the Kptfile is returned unchanged (no entry is appended), because the
skip comparison also fires when the existing mutator's empty exec equals
the runner's empty exec flag. -/
theorem c9_save_skips_without_match :
    NewFunction rC9 ("") =
      some { image := "gcr.io/kpt-fn/a:v1", name := "gcr.io/kpt-fn/a:v1" } ∧
    (¬claimMatches { image := "gcr.io/kpt-fn/a:v1", name := "gcr.io/kpt-fn/a:v1" } mC9) ∧
    saveFnToKptfile rC9 ("") kfC9 = some kfC9 ∧
    mutatorsOf kfC9 = [mC9] := by decide

/-- C9 (amended): SaveFnToKptfile leaves the Kptfile unchanged exactly when
some existing mutator's name or image equals the runner's image, or its name
or exec equals the runner's exec — the literal comparisons of the source,
where the unset one of image/exec is the empty string (so, e.g., saving an
image function is skipped whenever any existing mutator has an empty exec or
an empty name); otherwise exactly one new entry is appended to the end of
the mutators list. -/
theorem c9_save_fn_append_or_skip (r : EvalFnRunner) (rel : String) (kf : Kptfile)
    (fn : Function) (hfn : NewFunction r rel = some fn) :
    (saveSkip r (mutatorsOf kf) → saveFnToKptfile r rel kf = some kf)
    ∧ (¬saveSkip r (mutatorsOf kf) →
        saveFnToKptfile r rel kf = some
          { pipeline := some { mutators := mutatorsOf kf ++ [fn],
                               validators := validatorsOf kf } }) := by
  constructor
  · intro hskip
    unfold saveFnToKptfile
    rw [if_pos hskip]
  · intro hns
    unfold saveFnToKptfile
    rw [if_neg hns, hfn]
    rfl

/-- C9 witness: saving an exec function into a Kptfile with no pipeline
appends exactly that entry. -/
theorem c9_save_fn_append_or_skip_witness :
    NewFunction { Exec := "./fn.sh" } ("") = some { exec := "./fn.sh", name := "./fn.sh" } ∧
    (¬saveSkip { Exec := "./fn.sh" } (mutatorsOf { pipeline := none })) ∧
    saveFnToKptfile { Exec := "./fn.sh" } ("") { pipeline := none } =
      some
        { pipeline := some
            { mutators := [{ exec := "./fn.sh", name := "./fn.sh" }],
              validators := [] } } :=
  ⟨by decide, by decide,
   by
    have h := (c9_save_fn_append_or_skip { Exec := "./fn.sh" } ("") { pipeline := none }
      { exec := "./fn.sh", name := "./fn.sh" } (by decide)).2 (by decide)
    simpa using h⟩

/-! Claim C10. -/

/-- C10: an exit code of exactly 1 from the external diff tool is treated as
success (a nil error), because diff tools exit 1 when the directories
differ; any other non-zero exit code is returned as an error after the
warning is printed. -/
theorem c10_diff_exit_code_handling (d : DefaultPkgDiffer) (env : DiffEnv)
    (pkgs : List String) (hprep : prepAll env pkgs = Except.ok ()) :
    (env.runDiffTool d.DiffTool (diffToolArgs d pkgs) = CmdResult.exitError 1 →
      defaultPkgDifferDiff d env pkgs = (Except.ok (), false))
    ∧ (∀ code : Int, code ≠ 0 → code ≠ 1 →
        env.runDiffTool d.DiffTool (diffToolArgs d pkgs) = CmdResult.exitError code →
        defaultPkgDifferDiff d env pkgs =
          (Except.error ("exit status " ++ toString code), true)) := by
  constructor
  · intro hrun
    unfold defaultPkgDifferDiff
    rw [hprep, hrun]
    simp
  · intro code h0 h1 hrun
    unfold defaultPkgDifferDiff
    rw [hprep, hrun]
    simp [h1]

/-- A diff environment whose tool always exits with code 1. -/
def envC10 : DiffEnv where
  prepareForDiff := fun _ => Except.ok ()
  runDiffTool := fun _ _ => CmdResult.exitError 1

/-- C10 witness: with the tool exiting 1 on two staged packages, the differ
returns a nil error and prints no warning. -/
theorem c10_diff_exit_code_handling_witness :
    prepAll envC10 ["local-pkg", "remote-pkg"] = Except.ok () ∧
    envC10.runDiffTool ("diff") (diffToolArgs {} ["local-pkg", "remote-pkg"]) =
      CmdResult.exitError 1 ∧
    defaultPkgDifferDiff {} envC10 ["local-pkg", "remote-pkg"] = (Except.ok (), false) :=
  ⟨rfl, rfl,
   (c10_diff_exit_code_handling {} envC10 ["local-pkg", "remote-pkg"] rfl).1 rfl⟩
